import Mathlib

/-!
Verification of the AiHubMix compatibility shim (`app/settings.py`).

The shim monkey-patches a generative-AI client library:
* `new_init` (lines 82–100) wraps the client constructor, overriding the
  `api_key` keyword with the configured credential and the transport options
  with a normalized base URL (lines 92–94).
* `patched_upload` (lines 109–119) replaces the network upload with a local
  capture into a process-wide cache keyed by a synthetic id.
* `patched_generate` (lines 122–129) rewrites file-data parts whose uri is a
  cache key into inline-bytes parts before delegating.
* `_apply_aihubmix_patch` (lines 71–142) orchestrates installation with two
  nested failure boundaries.

The embedding below is a shallow, executable translation of that file:
Python strings become `List Char` wrapped in `String`, byte strings become
`List Nat`, the upload cache becomes an association list, asynchronous
functions become pure functions (a single cooperative event loop runs them
to completion), and each fallible installation step is parametrized by its
outcome.
-/

namespace AiHubMix

/-! ### Configuration data (the fields of `EpicSettings` the patch reads) -/

/-- `pydantic.SecretStr`: wraps a plaintext secret, exposed via
`get_secret_value`. -/
structure SecretStr where
  secret : String
  deriving DecidableEq

/-- `SecretStr.get_secret_value()` returns the wrapped plaintext. -/
def SecretStr.get_secret_value (s : SecretStr) : String := s.secret

/-- The three `EpicSettings` fields the patch reads (lines 29–42).
`GEMINI_API_KEY : SecretStr | None` is the feature flag: the patch is inert
when it is `None`. -/
structure Settings where
  GEMINI_API_KEY : Option SecretStr
  GEMINI_BASE_URL : String
  GEMINI_MODEL : String
  deriving DecidableEq

/-! ### Base-URL normalization (`settings.py` lines 92–94) -/

/-- Python `base_url.rstrip('/')` (line 92): removes every trailing `'/'`. -/
def rstripSlash (l : List Char) : List Char :=
  (l.reverse.dropWhile (fun c => c == '/')).reverse

/-- The character list of `"/v1"`. -/
def v1Suffix : List Char := ['/', 'v', '1']

/-- The character list of `"/gemini"`. -/
def geminiSuffix : List Char := ['/', 'g', 'e', 'm', 'i', 'n', 'i']

/-- Line 93: `if base_url.endswith('/v1'): base_url = base_url[:-3]`.
Python `s[:-3]` keeps all but the last three characters. -/
def stripV1 (l : List Char) : List Char :=
  if v1Suffix.isSuffixOf l then l.take (l.length - 3) else l

/-- Line 94: `if not base_url.endswith('/gemini'): base_url = f"..."` which
appends `"/gemini"`. -/
def ensureGemini (l : List Char) : List Char :=
  if geminiSuffix.isSuffixOf l then l else l ++ geminiSuffix

/-- The endpoint computation of lines 92–94 on character lists. -/
def normalizeBaseUrlL (l : List Char) : List Char :=
  ensureGemini (stripV1 (rstripSlash l))

/-- The endpoint passed to the original constructor, as a function of the
configured `GEMINI_BASE_URL` string (lines 92–96). -/
def normalize_base_url (s : String) : String :=
  String.mk (normalizeBaseUrlL s.data)

/-- Literal reading of the spec recipe, step (1): strip a single trailing
slash when one is present. Stated from the spec text of §4.2, for comparison
with the source's `rstripSlash`. -/
def spec_strip_one_slash (l : List Char) : List Char :=
  if l.getLast? == some '/' then l.dropLast else l

/-- The spec's three-step recipe under the literal single-slash reading of
step (1); steps (2) and (3) as written. -/
def spec_normalize_literal (s : String) : String :=
  String.mk (ensureGemini (stripV1 (spec_strip_one_slash s.data)))

/-- Step (1) amended to strip all trailing slashes (what Python
`rstrip('/')` does). -/
def spec_strip_all_slashes (l : List Char) : List Char :=
  (l.reverse.dropWhile (fun c => c == '/')).reverse

/-- The spec recipe with the amended step (1). -/
def spec_normalize_amended (s : String) : String :=
  String.mk (ensureGemini (stripV1 (spec_strip_all_slashes s.data)))

/-! ### The construction interceptor `new_init` (lines 82–100) -/

/-- The transport options object `types.HttpOptions(base_url=...)`. -/
structure HttpOptions where
  base_url : String
  deriving DecidableEq

/-- The keyword arguments of `genai.Client.__init__` that the patch touches,
plus `extra` for every other keyword argument, which is passed through
untouched. -/
structure ClientKwargs where
  api_key : Option String
  http_options : Option HttpOptions
  extra : List (String × String)
  deriving DecidableEq

/-- The keyword rewriting done by `new_init` (lines 84–96): the key is
extracted with `get_secret_value` when the credential has that attribute
(a `SecretStr`), else `str(...)` of the `None` value; `http_options` is
pointed at the normalized endpoint. -/
def new_init_kwargs (cfg : Settings) (kwargs : ClientKwargs) : ClientKwargs :=
  let api_key : String :=
    match cfg.GEMINI_API_KEY with
    | some k => k.get_secret_value
    | none => "None"
  let base_url := normalize_base_url cfg.GEMINI_BASE_URL
  { kwargs with
    api_key := some api_key
    http_options := some { base_url := base_url } }

/-- `new_init` (lines 82–98): rewrites the keyword arguments and delegates to
the original constructor `orig_init` with positional arguments unchanged.
The return type is abstract: whatever the original constructor produces
(including a raised exception modelled as an `Except` value) is returned
verbatim. -/
def new_init {γ : Type} (cfg : Settings)
    (orig_init : List String → ClientKwargs → γ)
    (args : List String) (kwargs : ClientKwargs) : γ :=
  orig_init args (new_init_kwargs cfg kwargs)

/-! ### The upload interceptor `patched_upload` (lines 107–119) -/

/-- Result of `file.read()`: either a plain byte string or a coroutine that
yields one (`asyncio.iscoroutine(content)`, line 115). -/
inductive ReadResult where
  | ready (b : List Nat)
  | coro (b : List Nat)
  deriving DecidableEq

/-- The `file` argument of `upload`: a stream-like object with a `read`
attribute, a filesystem path, or a raw byte-like value (lines 110–113). -/
inductive UploadSource where
  | stream (r : ReadResult)
  | path (p : String)
  | raw (b : List Nat)
  deriving DecidableEq

/-- Lines 110–115: read the source to a single byte string, awaiting the
read when it is a coroutine. Path reads go through the ambient filesystem
`fs`. -/
def readSource (fs : String → List Nat) : UploadSource → List Nat
  | .stream (.ready b) => b
  | .stream (.coro b) => b
  | .path p => fs p
  | .raw b => b

/-- The `types.File` reference object returned by `patched_upload`
(line 119). -/
structure GFile where
  name : String
  uri : String
  mime_type : String
  deriving DecidableEq

/-- The value and state produced by one call to `patched_upload`: the
returned file reference and the updated `file_cache`. -/
structure UploadResult where
  file : GFile
  cache : List (String × List Nat)
  deriving DecidableEq

/-- `patched_upload` (lines 109–119): reads the source, forms the synthetic
id `f"bypass_{id(content)}"` from the identity `idOf` of the byte buffer,
stores the bytes in the cache (Python dict assignment: the new binding
shadows, nothing is ever removed), and returns a `types.File` with
`name = uri = file_id` and mime type `"image/png"`. No network request is
issued anywhere in the body. -/
def patched_upload (idOf : List Nat → Nat) (fs : String → List Nat)
    (file_cache : List (String × List Nat)) (file : UploadSource) :
    UploadResult :=
  let content := readSource fs file
  let file_id := "bypass_" ++ Nat.repr (idOf content)
  { file := { name := file_id, uri := file_id, mime_type := "image/png" }
    cache := (file_id, content) :: file_cache }

/-! ### The content-rewrite interceptor `patched_generate` (lines 121–129) -/

/-- `types.FileData`: a by-reference file pointer carrying a uri. -/
structure FileData where
  file_uri : String
  deriving DecidableEq

/-- `types.Blob`: inline bytes with a mime type. -/
structure Blob where
  data : List Nat
  mime_type : String
  deriving DecidableEq

/-- A `types.Part`: at most one of a file-data reference, inline bytes, or
text. -/
structure Part where
  file_data : Option FileData
  inline_data : Option Blob
  text : Option String
  deriving DecidableEq

/-- `types.Part.from_bytes(data=..., mime_type=...)`: an inline-bytes part. -/
def Part.from_bytes (data : List Nat) (mime_type : String) : Part :=
  { file_data := none, inline_data := some { data := data, mime_type := mime_type }, text := none }

/-- A `types.Content`: a block holding a list of parts. -/
structure Content where
  parts : List Part
  deriving DecidableEq

/-- Lines 125–128 for one part: when the part carries file data whose uri is
a key of `file_cache`, replace it by `Part.from_bytes(data, "image/png")`;
otherwise leave it untouched. -/
def rewritePart (file_cache : List (String × List Nat)) (part : Part) : Part :=
  match part.file_data with
  | some fd =>
    match file_cache.lookup fd.file_uri with
    | some data => Part.from_bytes data "image/png"
    | none => part
  | none => part

/-- Lines 124–128 for one content block: the indexed in-place replacement
loop preserves length and order, i.e. maps `rewritePart` over the parts. -/
def rewriteContent (file_cache : List (String × List Nat)) (c : Content) : Content :=
  { parts := c.parts.map (rewritePart file_cache) }

/-- `patched_generate` (lines 122–129): normalizes the contents with the
library's own `_contents_to_list` (abstract here, since it is library code
the shim merely imports), rewrites every part, and delegates to the original
implementation with the rewritten tree, the model, and all other keyword
arguments unchanged; the awaited result is returned verbatim. -/
def patched_generate {κ ε γ : Type} (contentsToList : κ → List Content)
    (file_cache : List (String × List Nat))
    (orig_generate : String → List Content → ε → γ)
    (model : String) (contents : κ) (kwargs : ε) : γ :=
  let normalized := contentsToList contents
  let rewritten := normalized.map (rewriteContent file_cache)
  orig_generate model rewritten kwargs

/-! ### The installer `_apply_aihubmix_patch` (lines 71–142)

The installer is a sequence of fallible steps.  Each fallible step's outcome
is a parameter (`none` = the Python operation succeeded, `some e` = it raised
`e`).  All modelled errors are `Exception` subclasses, hence caught by the
outer `except Exception` when they reach it. -/

/-- Which function object sits at each patched entry point. -/
inductive Fn where
  | origInit | newInit | origUpload | patchedUpload | origGenerate | patchedGenerate
  deriving DecidableEq

/-- The three entry points of the library that the installer may reassign. -/
structure LibState where
  client_init : Fn
  files_upload : Fn
  models_generate_content : Fn
  deriving DecidableEq

/-- The library before any patching. -/
def origLib : LibState :=
  { client_init := .origInit, files_upload := .origUpload
    models_generate_content := .origGenerate }

/-- Python exception classes relevant to the installer; every constructor
models a subclass of `Exception`. -/
inductive PyError where
  | importErr | attributeErr | otherErr
  deriving DecidableEq

/-- Severity of a `loguru` log line. -/
inductive LogLevel where
  | info | warning | error
  deriving DecidableEq

/-- The installer's inputs: the configuration plus the outcome of each
fallible operation it performs, in source order:
* `core_import`: `from google import genai` / `... import types` (77–78);
* `common_import`: `from google.genai._common import _contents_to_list` (105);
* `generate_attr`: reading `genai.models.AsyncModels.generate_content` (121);
* `files_attr`: reading `genai.files.AsyncFiles` for the assignment (131). -/
structure PatchEnv where
  cfg : Settings
  core_import : Option PyError
  common_import : Option PyError
  generate_attr : Option PyError
  files_attr : Option PyError
  deriving DecidableEq

/-- What one run of the installer produces: the final library state, the log
lines it emitted (levels only), and the exception escaping to the caller, if
any. -/
structure InstallResult where
  lib : LibState
  log : List LogLevel
  raised : Option PyError
  deriving DecidableEq

/-- `_apply_aihubmix_patch` (lines 71–142).  Control flow of the source:
return silently when no credential is configured (72–73); the outer `try`
covers the core import and the constructor reassignment (75–100); the inner
`try` covers the optional upload/rewrite pair (103–133) and catches only
`ImportError` with two warnings (135–138); everything else raised inside the
outer `try` — including non-`ImportError` failures escaping the inner block —
is caught by `except Exception` with one error line (140–142).  Nothing is
ever rolled back. -/
def apply_aihubmix_patch (env : PatchEnv) (lib : LibState) : InstallResult :=
  if env.cfg.GEMINI_API_KEY.isNone then
    { lib := lib, log := [], raised := none }
  else
    match env.core_import with
    | some _ => { lib := lib, log := [.error], raised := none }
    | none =>
      let lib1 := { lib with client_init := Fn.newInit }
      match env.common_import with
      | some .importErr => { lib := lib1, log := [.warning, .warning], raised := none }
      | some _ => { lib := lib1, log := [.error], raised := none }
      | none =>
        match env.generate_attr with
        | some .importErr => { lib := lib1, log := [.warning, .warning], raised := none }
        | some _ => { lib := lib1, log := [.error], raised := none }
        | none =>
          match env.files_attr with
          | some .importErr => { lib := lib1, log := [.warning, .warning], raised := none }
          | some _ => { lib := lib1, log := [.error], raised := none }
          | none =>
            { lib := { lib1 with
                files_upload := .patchedUpload
                models_generate_content := .patchedGenerate }
              log := [.info], raised := none }

/-! ### Concrete fixtures used by the witness theorems -/

/-- A configured settings value. -/
def cfg0 : Settings :=
  { GEMINI_API_KEY := some ⟨"configured-key"⟩
    GEMINI_BASE_URL := "https://aihubmix.com/v1"
    GEMINI_MODEL := "gemini-2.5-pro" }

/-- Caller-supplied constructor keyword arguments. -/
def kwargs0 : ClientKwargs :=
  { api_key := some "caller-key", http_options := none, extra := [("timeout", "30")] }

/-- An original constructor that records the keyword arguments it receives. -/
def origInitFn : List String → ClientKwargs → ClientKwargs := fun _ kw => kw

/-- Unconfigured environment: no credential. -/
def env8 : PatchEnv :=
  { cfg := { GEMINI_API_KEY := none
             GEMINI_BASE_URL := "https://aihubmix.com"
             GEMINI_MODEL := "gemini-2.5-pro" }
    core_import := none, common_import := none
    generate_attr := none, files_attr := none }

/-- Configured environment whose optional internal import raises
`ImportError`. -/
def env4 : PatchEnv :=
  { cfg := cfg0, core_import := none
    common_import := some .importErr
    generate_attr := none, files_attr := none }

/-- Configured environment whose optional block raises an `AttributeError`
after the constructor was already patched. -/
def env10 : PatchEnv :=
  { cfg := cfg0, core_import := none, common_import := none
    generate_attr := some .attributeErr, files_attr := none }

/-- An empty ambient filesystem. -/
def fs0 : String → List Nat := fun _ => []

/-- A concrete pending-upload cache holding one synthetic entry. -/
def cache5 : List (String × List Nat) := [("bypass_1", [7, 8])]

/-- A part referencing the pending synthetic upload. -/
def p5 : Part := { file_data := some ⟨"bypass_1"⟩, inline_data := none, text := none }

/-- A part carrying no file reference. -/
def q5 : Part := { file_data := none, inline_data := none, text := some "hello" }

/-- A part referencing a uri that is not in the cache. -/
def p5m : Part := { file_data := some ⟨"bypass_unknown"⟩, inline_data := none, text := none }

/-- A concrete content block mixing all three part kinds. -/
def c5 : Content := { parts := [p5, q5, p5m] }

/-! ### Normalization lemmas -/

theorem dropWhile_gem (l : List Char) :
    (geminiSuffix.reverse ++ l).dropWhile (fun c => c == '/') = geminiSuffix.reverse ++ l := rfl

theorem rstripSlash_append_gemini (t : List Char) :
    rstripSlash (t ++ geminiSuffix) = t ++ geminiSuffix := by
  unfold rstripSlash
  rw [List.reverse_append, dropWhile_gem, ← List.reverse_append, List.reverse_reverse]

theorem not_v1_suffix_gemini (t : List Char) : ¬ v1Suffix <:+ (t ++ geminiSuffix) := by
  rintro ⟨s, hs⟩
  have h := congrArg List.reverse hs
  rw [List.reverse_append, List.reverse_append] at h
  have h1 := congrArg (fun l => l.head?) h
  simp [v1Suffix, geminiSuffix] at h1

theorem stripV1_append_gemini (t : List Char) :
    stripV1 (t ++ geminiSuffix) = t ++ geminiSuffix := by
  unfold stripV1
  rw [if_neg]
  intro h
  exact not_v1_suffix_gemini t (List.isSuffixOf_iff_suffix.mp h)

theorem ensureGemini_append_gemini (t : List Char) :
    ensureGemini (t ++ geminiSuffix) = t ++ geminiSuffix := by
  unfold ensureGemini
  rw [if_pos (List.isSuffixOf_iff_suffix.mpr (List.suffix_append t geminiSuffix))]

theorem ensureGemini_ends (l : List Char) : ∃ t, ensureGemini l = t ++ geminiSuffix := by
  unfold ensureGemini
  by_cases h : geminiSuffix.isSuffixOf l
  · obtain ⟨t, ht⟩ := List.isSuffixOf_iff_suffix.mp h
    exact ⟨t, by rw [if_pos h, ht]⟩
  · exact ⟨l, by rw [if_neg h]⟩

theorem normalizeBaseUrlL_idem (l : List Char) :
    normalizeBaseUrlL (normalizeBaseUrlL l) = normalizeBaseUrlL l := by
  obtain ⟨t, ht⟩ := ensureGemini_ends (stripV1 (rstripSlash l))
  show normalizeBaseUrlL (ensureGemini (stripV1 (rstripSlash l))) = _
  rw [ht]
  unfold normalizeBaseUrlL
  rw [rstripSlash_append_gemini, stripV1_append_gemini, ensureGemini_append_gemini, ← ht]

/-! ### Claims about normalization (C2, C3) -/

/-- Claim C2, counterexample: the endpoint the code computes does not, for
every string, equal the spec's literal recipe whose step (1) strips a single
trailing slash.  At `"https://aihubmix.com//"` the code (Python
`rstrip('/')`) strips both slashes and yields
`"https://aihubmix.com/gemini"`, while the literal recipe strips only one
and yields `"https://aihubmix.com//gemini"`. -/
theorem C2_counterexample_double_slash :
    normalize_base_url "https://aihubmix.com//" ≠
      spec_normalize_literal "https://aihubmix.com//" ∧
    normalize_base_url "https://aihubmix.com//" = "https://aihubmix.com/gemini" ∧
    spec_normalize_literal "https://aihubmix.com//" = "https://aihubmix.com//gemini" := by
  refine ⟨by decide, by decide, by decide⟩

/-- Claim C2, amended: for every base-URL string the endpoint passed to the
original constructor equals the spec recipe once step (1) is read as
stripping all trailing slashes (Python `rstrip('/')`); steps (2) and (3) as
stated.  The three concrete examples of the claim hold as stated. -/
theorem C2_normalization_recipe :
    (∀ u : String, normalize_base_url u = spec_normalize_amended u) ∧
    normalize_base_url "https://aihubmix.com/" = "https://aihubmix.com/gemini" ∧
    normalize_base_url "https://aihubmix.com/v1" = "https://aihubmix.com/gemini" ∧
    normalize_base_url "https://aihubmix.com/gemini" = "https://aihubmix.com/gemini" := by
  refine ⟨fun u => rfl, by decide, by decide, by decide⟩

/-- Claim C3: the base-URL normalization is idempotent — normalizing twice
yields the same string as normalizing once, for every string. -/
theorem C3_normalize_idempotent (u : String) :
    normalize_base_url (normalize_base_url u) = normalize_base_url u :=
  congrArg String.mk (normalizeBaseUrlL_idem u.data)

/-! ### Claims about the construction interceptor (C1) -/

/-- Claim C1: with a credential configured, the intercepted constructor
delegates to the original constructor with the `api_key` keyword set to the
credential's plaintext (via `get_secret_value`), and the caller-supplied key
is discarded: replacing it by any other value leaves the delegated call
unchanged. -/
theorem C1_construction_overrides_key {γ : Type} (cfg : Settings) (k : SecretStr)
    (h : cfg.GEMINI_API_KEY = some k)
    (orig_init : List String → ClientKwargs → γ) (args : List String)
    (kwargs : ClientKwargs) (suppliedKey : Option String) :
    new_init cfg orig_init args kwargs = orig_init args (new_init_kwargs cfg kwargs)
    ∧ (new_init_kwargs cfg kwargs).api_key = some k.get_secret_value
    ∧ new_init cfg orig_init args { kwargs with api_key := suppliedKey }
        = new_init cfg orig_init args kwargs := by
  refine ⟨rfl, ?_, rfl⟩
  simp [new_init_kwargs, h]

/-- Witness for C1 at a concrete configuration, caller kwargs and supplied
key. -/
theorem C1_construction_overrides_key_witness :
    new_init cfg0 origInitFn ["pos"] kwargs0 = origInitFn ["pos"] (new_init_kwargs cfg0 kwargs0)
    ∧ (new_init_kwargs cfg0 kwargs0).api_key = some (SecretStr.mk "configured-key").get_secret_value
    ∧ new_init cfg0 origInitFn ["pos"] { kwargs0 with api_key := some "attacker-key" }
        = new_init cfg0 origInitFn ["pos"] kwargs0 :=
  C1_construction_overrides_key cfg0 ⟨"configured-key"⟩ rfl origInitFn ["pos"] kwargs0
    (some "attacker-key")

/-! ### Claims about the installer (C4, C8, C9, C10) -/

theorem install_raised_none (env : PatchEnv) (lib : LibState) :
    (apply_aihubmix_patch env lib).raised = none := by
  unfold apply_aihubmix_patch
  repeat' split
  all_goals rfl

/-- Claim C4: if the optional upload/content-rewrite pair fails to install
because an internal API is absent (`ImportError`, at any of the three
version-sensitive steps), the installer catches it separately, logs warnings
and no error, raises nothing, and leaves the construction interceptor
installed and fully functional (key and endpoint still overridden). -/
theorem C4_optional_failure_degrades (env : PatchEnv) (k : SecretStr)
    (hk : env.cfg.GEMINI_API_KEY = some k)
    (hcore : env.core_import = none)
    (hopt : env.common_import = some .importErr
      ∨ (env.common_import = none ∧ env.generate_attr = some .importErr)
      ∨ (env.common_import = none ∧ env.generate_attr = none ∧ env.files_attr = some .importErr))
    (lib : LibState) (kwargs : ClientKwargs) :
    apply_aihubmix_patch env lib =
      { lib := { lib with client_init := Fn.newInit }
        log := [LogLevel.warning, LogLevel.warning], raised := none }
    ∧ LogLevel.error ∉ (apply_aihubmix_patch env lib).log
    ∧ (new_init_kwargs env.cfg kwargs).api_key = some k.get_secret_value
    ∧ (new_init_kwargs env.cfg kwargs).http_options
        = some { base_url := normalize_base_url env.cfg.GEMINI_BASE_URL } := by
  rcases hopt with h | ⟨h1, h2⟩ | ⟨h1, h2, h3⟩ <;>
    simp [apply_aihubmix_patch, new_init_kwargs, hk, hcore, *]

/-- Witness for C4: concrete environment whose optional internal import
raises `ImportError`. -/
theorem C4_optional_failure_degrades_witness :
    apply_aihubmix_patch env4 origLib =
      { lib := { origLib with client_init := Fn.newInit }
        log := [LogLevel.warning, LogLevel.warning], raised := none }
    ∧ LogLevel.error ∉ (apply_aihubmix_patch env4 origLib).log
    ∧ (new_init_kwargs env4.cfg kwargs0).api_key
        = some (SecretStr.mk "configured-key").get_secret_value
    ∧ (new_init_kwargs env4.cfg kwargs0).http_options
        = some { base_url := normalize_base_url env4.cfg.GEMINI_BASE_URL } :=
  C4_optional_failure_degrades env4 ⟨"configured-key"⟩ rfl rfl (Or.inl rfl) origLib kwargs0

/-- Claim C8: with no credential configured the installer does nothing and
returns silently — no log line, no exception, and the library's three entry
points are left exactly as found (the original function objects). -/
theorem C8_disabled_feature_inert (env : PatchEnv)
    (h : env.cfg.GEMINI_API_KEY = none) (lib : LibState) :
    apply_aihubmix_patch env lib = { lib := lib, log := [], raised := none }
    ∧ (apply_aihubmix_patch env origLib).lib.client_init = Fn.origInit
    ∧ (apply_aihubmix_patch env origLib).lib.files_upload = Fn.origUpload
    ∧ (apply_aihubmix_patch env origLib).lib.models_generate_content = Fn.origGenerate := by
  simp [apply_aihubmix_patch, h, origLib]

/-- Witness for C8: the concrete unconfigured environment. -/
theorem C8_disabled_feature_inert_witness :
    apply_aihubmix_patch env8 origLib = { lib := origLib, log := [], raised := none }
    ∧ (apply_aihubmix_patch env8 origLib).lib.client_init = Fn.origInit
    ∧ (apply_aihubmix_patch env8 origLib).lib.files_upload = Fn.origUpload
    ∧ (apply_aihubmix_patch env8 origLib).lib.models_generate_content = Fn.origGenerate :=
  C8_disabled_feature_inert env8 rfl origLib

/-- Claim C9: installation errors never escape the installer (for every
environment and library state the installer raises nothing), while an
exception produced by a delegated original function — the constructor inside
`new_init` or the generate-content implementation inside `patched_generate`
— is returned to the caller unchanged, never swallowed. -/
theorem C9_error_propagation_policy (env : PatchEnv) (lib : LibState)
    {γ : Type} (cfg : Settings)
    (orig_init : List String → ClientKwargs → Except PyError γ)
    (args : List String) (kwargs : ClientKwargs) (e : PyError)
    (h1 : orig_init args (new_init_kwargs cfg kwargs) = Except.error e)
    {κ ε δ : Type} (contentsToList : κ → List Content)
    (file_cache : List (String × List Nat))
    (orig_generate : String → List Content → ε → Except PyError δ)
    (model : String) (contents : κ) (kwargs2 : ε) (e2 : PyError)
    (h2 : orig_generate model ((contentsToList contents).map (rewriteContent file_cache)) kwargs2
      = Except.error e2) :
    (apply_aihubmix_patch env lib).raised = none
    ∧ new_init cfg orig_init args kwargs = Except.error e
    ∧ patched_generate contentsToList file_cache orig_generate model contents kwargs2
      = Except.error e2 :=
  ⟨install_raised_none env lib, h1, h2⟩

/-- Witness for C9: concrete environment, and concrete delegated functions
that raise. -/
theorem C9_error_propagation_policy_witness :
    (apply_aihubmix_patch env10 origLib).raised = none
    ∧ new_init cfg0 (fun _ _ => (Except.error PyError.otherErr : Except PyError ClientKwargs))
        ["pos"] kwargs0 = Except.error PyError.otherErr
    ∧ patched_generate (fun l : List Content => l) []
        (fun _ _ _ => (Except.error PyError.attributeErr : Except PyError Nat))
        "gemini-2.5-pro" [] () = Except.error PyError.attributeErr :=
  C9_error_propagation_policy env10 origLib cfg0
    (fun _ _ => (Except.error PyError.otherErr : Except PyError ClientKwargs))
    ["pos"] kwargs0 PyError.otherErr rfl
    (fun l : List Content => l) []
    (fun _ _ _ => (Except.error PyError.attributeErr : Except PyError Nat))
    "gemini-2.5-pro" [] () PyError.attributeErr rfl

/-- Claim C10: a non-`ImportError` failure in the optional block (for
example a missing attribute on the `files` or `models` entry points), raised
after the constructor was already reassigned, escapes the inner handler, is
caught at the outer boundary and logged as a fatal error — and yet the
construction interceptor stays installed: the constructor is not restored,
while upload and generate-content keep their previous function objects. -/
theorem C10_fatal_log_but_interceptor_stays (env : PatchEnv) (k : SecretStr)
    (hk : env.cfg.GEMINI_API_KEY = some k)
    (hcore : env.core_import = none) (hcom : env.common_import = none)
    (e : PyError) (he : e ≠ PyError.importErr)
    (hopt : env.generate_attr = some e
      ∨ (env.generate_attr = none ∧ env.files_attr = some e))
    (lib : LibState) :
    apply_aihubmix_patch env lib =
      { lib := { lib with client_init := Fn.newInit }
        log := [LogLevel.error], raised := none }
    ∧ (apply_aihubmix_patch env lib).lib.client_init = Fn.newInit
    ∧ (apply_aihubmix_patch env lib).lib.files_upload = lib.files_upload
    ∧ (apply_aihubmix_patch env lib).lib.models_generate_content
        = lib.models_generate_content := by
  rcases hopt with h | ⟨h1, h2⟩ <;> cases e <;>
    simp [apply_aihubmix_patch, hk, hcore, hcom, *] <;> exact absurd rfl he

/-- Witness for C10: concrete environment raising `AttributeError` while
reading the generate-content attribute. -/
theorem C10_fatal_log_but_interceptor_stays_witness :
    apply_aihubmix_patch env10 origLib =
      { lib := { origLib with client_init := Fn.newInit }
        log := [LogLevel.error], raised := none }
    ∧ (apply_aihubmix_patch env10 origLib).lib.client_init = Fn.newInit
    ∧ (apply_aihubmix_patch env10 origLib).lib.files_upload = origLib.files_upload
    ∧ (apply_aihubmix_patch env10 origLib).lib.models_generate_content
        = origLib.models_generate_content :=
  C10_fatal_log_but_interceptor_stays env10 ⟨"configured-key"⟩ rfl rfl rfl
    PyError.attributeErr (by decide) (Or.inl rfl) origLib

/-! ### Claims about the upload and content-rewrite interceptors (C5, C6, C7) -/

/-- Claim C5: the generate-content interceptor normalizes the content tree
with the library's routine, maps the part rewriting over every block, and
delegates to the original implementation with the rewritten tree and all
other arguments unchanged, returning its result verbatim; a part whose
file-data uri is a cache key becomes an inline-bytes part holding exactly
the cached bytes and no file reference, and every other part — with no file
data, or with a uri not in the cache — is left untouched. -/
theorem C5_generate_rewrites_and_delegates {κ ε γ : Type}
    (contentsToList : κ → List Content) (file_cache : List (String × List Nat))
    (orig_generate : String → List Content → ε → γ)
    (model : String) (contents : κ) (kwargs : ε) (c : Content)
    (p : Part) (fd : FileData) (data : List Nat)
    (hfd : p.file_data = some fd) (hdata : file_cache.lookup fd.file_uri = some data)
    (q : Part) (hq : q.file_data = none)
    (p' : Part) (fd' : FileData)
    (hfd' : p'.file_data = some fd') (hmiss : file_cache.lookup fd'.file_uri = none) :
    patched_generate contentsToList file_cache orig_generate model contents kwargs
      = orig_generate model ((contentsToList contents).map (rewriteContent file_cache)) kwargs
    ∧ rewriteContent file_cache c = { parts := c.parts.map (rewritePart file_cache) }
    ∧ rewritePart file_cache p = Part.from_bytes data "image/png"
    ∧ (rewritePart file_cache p).inline_data = some { data := data, mime_type := "image/png" }
    ∧ (rewritePart file_cache p).file_data = none
    ∧ rewritePart file_cache q = q
    ∧ rewritePart file_cache p' = p' := by
  refine ⟨rfl, rfl, ?_, ?_, ?_, ?_, ?_⟩ <;>
    simp [rewritePart, Part.from_bytes, hfd, hdata, hq, hfd', hmiss]

/-- Witness for C5 at a concrete cache and concrete parts of all three
kinds. -/
theorem C5_generate_rewrites_and_delegates_witness :
    patched_generate (fun l : List Content => l) cache5
        (fun _ l _ => l) "gemini-2.5-pro" [c5] ()
      = (fun (_ : String) (l : List Content) (_ : Unit) => l) "gemini-2.5-pro"
          (([c5] : List Content).map (rewriteContent cache5)) ()
    ∧ rewriteContent cache5 c5 = { parts := c5.parts.map (rewritePart cache5) }
    ∧ rewritePart cache5 p5 = Part.from_bytes [7, 8] "image/png"
    ∧ (rewritePart cache5 p5).inline_data = some { data := [7, 8], mime_type := "image/png" }
    ∧ (rewritePart cache5 p5).file_data = none
    ∧ rewritePart cache5 q5 = q5
    ∧ rewritePart cache5 p5m = p5m :=
  C5_generate_rewrites_and_delegates (fun l : List Content => l) cache5
    (fun _ l _ => l) "gemini-2.5-pro" [c5] () c5 p5 ⟨"bypass_1"⟩ [7, 8] rfl rfl q5 rfl
    p5m ⟨"bypass_unknown"⟩ rfl rfl

/-- Claim C6: one upload call reads the source to a single byte sequence
(awaiting a coroutine-valued read), returns a file reference whose name
equals its uri equals the synthetic id `"bypass_" ++ id` with mime type
`image/png`, and extends the process-wide cache with that entry, removing
nothing: every previously present key still resolves exactly as before. -/
theorem C6_upload_captures_locally (idOf : List Nat → Nat) (fs : String → List Nat)
    (file_cache : List (String × List Nat)) (src : UploadSource)
    (k : String) (b : List Nat) :
    (patched_upload idOf fs file_cache src).file.name
      = (patched_upload idOf fs file_cache src).file.uri
    ∧ (patched_upload idOf fs file_cache src).file.uri
      = "bypass_" ++ Nat.repr (idOf (readSource fs src))
    ∧ (patched_upload idOf fs file_cache src).file.mime_type = "image/png"
    ∧ (patched_upload idOf fs file_cache src).cache
      = ((patched_upload idOf fs file_cache src).file.uri, readSource fs src) :: file_cache
    ∧ (patched_upload idOf fs file_cache src).cache.lookup
        ((patched_upload idOf fs file_cache src).file.uri) = some (readSource fs src)
    ∧ ((patched_upload idOf fs file_cache src).cache.lookup k
        = match k == (patched_upload idOf fs file_cache src).file.uri with
          | true => some (readSource fs src)
          | false => file_cache.lookup k)
    ∧ readSource fs (UploadSource.stream (.coro b)) = b := by
  refine ⟨rfl, rfl, rfl, rfl, ?_, rfl, rfl⟩
  simp [patched_upload, List.lookup]

/-! Decimal rendering: `Nat.repr` is injective.  Needed because the
synthetic upload id embeds the buffer identity through `Nat.repr`. -/

theorem toDigitsCore_digits (b : Nat) (hb : 1 < b) :
    ∀ (f n : Nat) (acc : List Char), 0 < n → n < b ^ f →
      Nat.toDigitsCore b f n acc
        = ((Nat.digits b n).map Nat.digitChar).reverse ++ acc := by
  intro f
  induction f with
  | zero =>
    intro n acc hn hlt
    simp at hlt
    omega
  | succ f ih =>
    intro n acc hn hlt
    rw [Nat.digits_def' hb hn]
    show (if n / b = 0 then Nat.digitChar (n % b) :: acc
          else Nat.toDigitsCore b f (n / b) (Nat.digitChar (n % b) :: acc)) = _
    by_cases h0 : n / b = 0
    · rw [if_pos h0, h0, Nat.digits_zero]
      simp
    · rw [if_neg h0]
      have hb0 : 0 < b := Nat.lt_of_lt_of_le Nat.zero_lt_one (Nat.le_of_lt hb)
      have hdiv_lt : n / b < b ^ f := by
        rw [pow_succ] at hlt
        exact (Nat.div_lt_iff_lt_mul hb0).mpr hlt
      rw [ih (n / b) (Nat.digitChar (n % b) :: acc) (Nat.pos_of_ne_zero h0) hdiv_lt]
      simp

theorem repr_pos_eq (n : Nat) (hn : 0 < n) :
    Nat.repr n = String.mk (((Nat.digits 10 n).map Nat.digitChar).reverse) := by
  show (Nat.toDigits 10 n).asString = _
  unfold Nat.toDigits
  have hlt : n < 10 ^ (n + 1) :=
    Nat.lt_of_lt_of_le (Nat.lt_pow_self (by norm_num) n)
      (Nat.pow_le_pow_right (by norm_num) (Nat.le_succ n))
  rw [toDigitsCore_digits 10 (by norm_num) (n + 1) n [] hn hlt]
  simp [List.asString]

theorem digitChar_inj (a c : Nat) (ha : a < 10) (hc : c < 10)
    (h : Nat.digitChar a = Nat.digitChar c) : a = c := by
  interval_cases a <;> interval_cases c <;> first | rfl | exact absurd h (by decide)

theorem map_digitChar_inj (l1 : List Nat) (h1 : ∀ d ∈ l1, d < 10) :
    ∀ l2 : List Nat, (∀ d ∈ l2, d < 10) →
      l1.map Nat.digitChar = l2.map Nat.digitChar → l1 = l2 := by
  induction l1 with
  | nil =>
    intro l2 _ h
    cases l2 with
    | nil => rfl
    | cons b t => simp at h
  | cons a t ih =>
    intro l2 h2 h
    cases l2 with
    | nil => simp at h
    | cons b t2 =>
      simp only [List.map_cons, List.cons.injEq] at h
      have hab := digitChar_inj a b (h1 a (by simp)) (h2 b (by simp)) h.1
      rw [hab, ih (fun d hd => h1 d (by simp [hd])) t2 (fun d hd => h2 d (by simp [hd])) h.2]

theorem nat_repr_injective : Function.Injective Nat.repr := by
  intro m n h
  have key : ∀ j : Nat, 0 < j → Nat.repr 0 = Nat.repr j → False := by
    intro j hj hrepr
    rw [repr_pos_eq j hj] at hrepr
    have h0 : Nat.repr 0 = String.mk ['0'] := rfl
    rw [h0] at hrepr
    have hdata := congrArg String.data hrepr
    have hrev := congrArg List.reverse hdata
    simp only [List.reverse_reverse] at hrev
    cases hd : Nat.digits 10 j with
    | nil => rw [hd] at hrev; simp at hrev
    | cons d t =>
      rw [hd] at hrev
      simp only [List.map_cons, List.reverse_cons] at hrev
      have hch : '0' = Nat.digitChar d ∧ t = [] := by simpa using hrev
      have hd10 : d < 10 := Nat.digits_lt_base (by norm_num) (hd ▸ List.mem_cons_self d t)
      have hdz : d = 0 := digitChar_inj d 0 hd10 (by norm_num) hch.1.symm
      have hdig : Nat.digits 10 j = [0] := by rw [hd, hdz, hch.2]
      have := congrArg (Nat.ofDigits 10) hdig
      rw [Nat.ofDigits_digits] at this
      simp [Nat.ofDigits] at this
      omega
  rcases Nat.eq_zero_or_pos m with hm | hm <;> rcases Nat.eq_zero_or_pos n with hn | hn
  · rw [hm, hn]
  · exact absurd (hm ▸ h) (fun hh => (key n hn hh).elim)
  · exact absurd (hn ▸ h.symm) (fun hh => (key m hm hh).elim)
  · rw [repr_pos_eq m hm, repr_pos_eq n hn] at h
    have hdata := congrArg String.data h
    have hrev := List.reverse_injective hdata
    have hmap := map_digitChar_inj (Nat.digits 10 m)
      (fun d hd => Nat.digits_lt_base (by norm_num) hd) (Nat.digits 10 n)
      (fun d hd => Nat.digits_lt_base (by norm_num) hd) hrev
    have := congrArg (Nat.ofDigits 10) hmap
    rwa [Nat.ofDigits_digits, Nat.ofDigits_digits] at this

/-- Claim C7: with the byte-buffer identity injective (Python guarantees
distinct ids for distinct live objects, and the cache keeps every uploaded
buffer alive), any two uploads whose byte contents differ yield distinct
synthetic references — so synthetic ids are unique among pending uploads. -/
theorem C7_synthetic_ids_distinct (idOf : List Nat → Nat)
    (hinj : Function.Injective idOf) (fs : String → List Nat)
    (c1 c2 : List (String × List Nat)) (s1 s2 : UploadSource)
    (hne : readSource fs s1 ≠ readSource fs s2) :
    (patched_upload idOf fs c1 s1).file.uri ≠ (patched_upload idOf fs c2 s2).file.uri := by
  intro h
  have h' : "bypass_" ++ Nat.repr (idOf (readSource fs s1))
      = "bypass_" ++ Nat.repr (idOf (readSource fs s2)) := h
  have hd := congrArg String.data h'
  rw [String.data_append, String.data_append] at hd
  have hrepr : Nat.repr (idOf (readSource fs s1)) = Nat.repr (idOf (readSource fs s2)) :=
    String.ext (List.append_cancel_left hd)
  exact hne (hinj (nat_repr_injective hrepr))

/-- Witness for C7: a concrete injective identity function (an encoding of
byte lists into naturals) and two uploads of distinct contents. -/
theorem C7_synthetic_ids_distinct_witness :
    (patched_upload (fun b => Encodable.encode b) fs0 [] (UploadSource.raw [0])).file.uri
      ≠ (patched_upload (fun b => Encodable.encode b) fs0 [] (UploadSource.raw [1])).file.uri :=
  C7_synthetic_ids_distinct (fun b => Encodable.encode b)
    (fun _ _ hab => Encodable.encode_injective hab) fs0 [] []
    (UploadSource.raw [0]) (UploadSource.raw [1]) (by decide)

end AiHubMix
